import Mathlib

/-!
Verification of the scheduled-publish pipeline of the insta_automate
repository: media validation rules, the Instagram adapter's publish
protocol (container lifecycle), the carousel ordering, and the worker's
retry / status-transition logic.  All definitions are shallow embeddings
of the TypeScript source.
-/

namespace InstaAutomate

/-- Post kinds, from `platform-adapter.interface.ts` (`enum PostType`). -/
inductive PostType where
  | IMAGE
  | CAROUSEL
  | REEL
  | VIDEO
  | TEXT
deriving DecidableEq

def postTypeName : PostType → String
  | .IMAGE => "IMAGE"
  | .CAROUSEL => "CAROUSEL"
  | .REEL => "REEL"
  | .VIDEO => "VIDEO"
  | .TEXT => "TEXT"

/-- Media asset reference, from `interface MediaAsset`.  Optional numeric
fields are `Option Nat`; JavaScript truthiness (`x && ...`) treats both a
missing field and `0` as falsy, which `numTruthy` captures. -/
structure MediaAsset where
  id : String
  fileUrl : String
  fileType : String
  fileSize : Option Nat
  width : Option Nat
  height : Option Nat
  position : Option Nat
deriving DecidableEq

/-- JavaScript truthiness of an optional number (`undefined` and `0` are falsy). -/
def numTruthy : Option Nat → Bool
  | none => false
  | some n => n != 0

/-- JavaScript `x || 0` on an optional number. -/
def numVal : Option Nat → Nat
  | none => 0
  | some n => n

/-- JavaScript `s || d` on an optional string (`undefined` and `""` are falsy). -/
def strOrD : Option String → String → String
  | none, d => d
  | some s, d => if s = "" then d else s

/-- JavaScript truthiness of an optional string. -/
def strTruthy : Option String → Bool
  | none => false
  | some s => s != ""

/-- Validation result, from `interface ValidationResult`.  The source sets
`valid: errors.length === 0` and returns the error/warning arrays. -/
structure ValidationResult where
  valid : Bool
  errors : List String
  warnings : List String
deriving DecidableEq

def imageSizeLimit : Nat := 8 * 1024 * 1024

def reelSizeLimit : Nat := 100 * 1024 * 1024

/-- Character-by-character prefix test (semantics of JavaScript
`String.prototype.startsWith`, written structurally so it computes). -/
def charsMatch : List Char → List Char → Bool
  | [], _ => true
  | _ :: _, [] => false
  | c :: cs, d :: ds => c == d && charsMatch cs ds

/-- `s.startsWith(pre)`. -/
def strStartsWith (s pre : String) : Bool := charsMatch pre.data s.data

/-- `m.fileType && !m.fileType.startsWith('image/')` from `validateMedia`. -/
def imageTypeErr (a : MediaAsset) : Bool :=
  a.fileType != "" && !(strStartsWith a.fileType "image/")

/-- `m.fileSize && m.fileSize > 8 * 1024 * 1024` from `validateMedia`. -/
def imageSizeErr (a : MediaAsset) : Bool :=
  numTruthy a.fileSize && decide (numVal a.fileSize > imageSizeLimit)

/-- `m.fileType && !m.fileType.startsWith('video/')` from `validateMedia`. -/
def reelTypeErr (a : MediaAsset) : Bool :=
  a.fileType != "" && !(strStartsWith a.fileType "video/")

/-- `m.fileSize && m.fileSize > 100 * 1024 * 1024` from `validateMedia`. -/
def reelSizeErr (a : MediaAsset) : Bool :=
  numTruthy a.fileSize && decide (numVal a.fileSize > reelSizeLimit)

/-- `w && (w < 320 || w > 1440)` dimension warning guard for image posts. -/
def imageDimWarn (o : Option Nat) : Bool :=
  numTruthy o && decide (numVal o < 320 ∨ numVal o > 1440)

/-- Errors pushed for an `IMAGE` post, in source push order. -/
def imageErrs (media : List MediaAsset) : List String :=
  (if media.length ≠ 1 then ["Image post must have exactly 1 image"] else []) ++
  (match media.head? with
   | none => []
   | some a =>
     (if imageTypeErr a then ["Invalid file type for image post. Must be an image."] else []) ++
     (if imageSizeErr a then ["Image file size must be less than 8MB"] else []))

/-- Warnings pushed for an `IMAGE` post, in source push order. -/
def imageWarns (media : List MediaAsset) : List String :=
  match media.head? with
  | none => []
  | some a =>
    (if imageDimWarn a.width then
       ["Image width should be between 320 and 1440 pixels for best quality"] else []) ++
    (if imageDimWarn a.height then
       ["Image height should be between 320 and 1440 pixels for best quality"] else [])

/-- Per-item carousel errors from the `media.forEach((m, index) => ...)` loop;
`i` is the 1-based index interpolated into the messages. -/
def carErrsFrom (i : Nat) : List MediaAsset → List String
  | [] => []
  | a :: rest =>
    (if imageTypeErr a then ["Item " ++ toString i ++ " in carousel must be an image"] else []) ++
    (if imageSizeErr a then ["Item " ++ toString i ++ " in carousel exceeds 8MB limit"] else []) ++
    carErrsFrom (i + 1) rest

/-- Errors pushed for a `CAROUSEL` post, in source push order. -/
def carouselErrs (media : List MediaAsset) : List String :=
  (if media.length < 2 ∨ media.length > 10 then
     ["Carousel post must have between 2 and 10 images"] else []) ++
  carErrsFrom 1 media

/-- Errors pushed for a `REEL` post, in source push order. -/
def reelErrs (media : List MediaAsset) : List String :=
  (if media.length ≠ 1 then ["Reel must have exactly 1 video"] else []) ++
  (match media.head? with
   | none => []
   | some a =>
     (if reelTypeErr a then ["Invalid file type for reel. Must be a video."] else []) ++
     (if reelSizeErr a then ["Video file size must be less than 100MB"] else []))

/-- Warnings pushed for a `REEL` post, in source push order. -/
def reelWarns (media : List MediaAsset) : List String :=
  match media.head? with
  | none => []
  | some a =>
    (if numTruthy a.width && decide (numVal a.width ≠ 1080) then
       ["Reel width should be 1080 pixels for best quality"] else []) ++
    (if numTruthy a.height && decide (numVal a.height ≠ 1920) then
       ["Reel height should be 1920 pixels (9:16 aspect ratio)"] else [])

/-- `InstagramAdapter.validateMedia`, clause by clause.  Only the branch
matching `postType` contributes, preserving push order; `valid` is
`errors.length === 0` as in the source. -/
def validateMedia (media : List MediaAsset) (postType : PostType) : ValidationResult :=
  let errors : List String :=
    (if postType = .IMAGE then imageErrs media else []) ++
    (if postType = .CAROUSEL then carouselErrs media else []) ++
    (if postType = .REEL then reelErrs media else [])
  let warnings : List String :=
    (if postType = .IMAGE then imageWarns media else []) ++
    (if postType = .REEL then reelWarns media else [])
  { valid := errors.isEmpty, errors := errors, warnings := warnings }

/-- Publish result, from `interface PublishResult`. -/
structure PublishResult where
  success : Bool
  platformPostId : Option String
  platformPostUrl : Option String
  error : Option String
  errorCode : Option String
deriving DecidableEq

/-- Container status payload returned by
`InstagramGraphApiService.getContainerStatus` (fields `status_code`, `status`). -/
structure ContainerStatus where
  code : String
  statusMsg : String
deriving DecidableEq

/-- Outcomes of the remote Graph API calls made by the adapter.  Each
`Except.error` carries the message of the `Error` rethrown by the
corresponding `InstagramGraphApiService` method; `containerStatusAt k` is the
payload observed by the k-th poll of `getContainerStatus`. -/
structure RemoteApi where
  createImageContainer : String → String → Except String String
  createItemContainer : String → Except String String
  createCarouselParent : String → String → Except String String
  createReelContainer : String → String → Except String String
  containerStatusAt : Nat → ContainerStatus
  publishContainer : String → Except String String
  getPostInfo : String → Except String String

/-- Post shape handed to `publishPost` / `publishReel`; `accessToken` and
`igAccountId` are read via `(post as any)` in the source, hence optional. -/
structure AdapterPost where
  postType : PostType
  caption : Option String
  mediaAssets : List MediaAsset
  accessToken : Option String
  igAccountId : Option String

def pollIntervalMs : Nat := 2000

def imageTimeoutMs : Nat := 10000

def reelTimeoutMs : Nat := 30000

/-- Number of `getContainerStatus` polls a `while (Date.now() - startTime <
timeout)` loop performs when each iteration advances time by the 2 s poll
interval. -/
def pollLimit (timeoutMs : Nat) : Nat := (timeoutMs + (pollIntervalMs - 1)) / pollIntervalMs

/-- One iteration of `waitForContainerReady`'s polling loop: `FINISHED`
returns, `ERROR` throws with the remote status message (`status ||
'Unknown error'`), anything else polls again until the fuel (remaining
polls before the timeout) runs out. -/
def waitLoop (statusAt : Nat → ContainerStatus) : Nat → Nat → Except String Unit
  | 0, _ => .error "Container processing timeout"
  | fuel + 1, k =>
    let st := statusAt k
    if st.code = "FINISHED" then .ok ()
    else if st.code = "ERROR" then
      .error ("Container processing failed: " ++
        (if st.statusMsg = "" then "Unknown error" else st.statusMsg))
    else waitLoop statusAt fuel (k + 1)

/-- `InstagramAdapter.waitForContainerReady` over an abstract poll trace. -/
def waitForContainerReady (statusAt : Nat → ContainerStatus) (timeoutMs : Nat) :
    Except String Unit :=
  waitLoop statusAt (pollLimit timeoutMs) 0

/-- `(a.position || 0)` sort key used by the carousel branch of `publishPost`. -/
def positionKey (a : MediaAsset) : Nat := numVal a.position

/-- `post.mediaAssets.sort((a, b) => (a.position || 0) - (b.position || 0))`:
a stable ascending sort on the position key (`Array.prototype.sort` is
stable, as is insertion sort). -/
def carouselOrder (assets : List MediaAsset) : List MediaAsset :=
  List.insertionSort (fun a b => positionKey a ≤ positionKey b) assets

/-- The per-item loop of `InstagramGraphApiService.createCarouselContainers`:
each image URL is submitted in list order and its container id collected. -/
def createCarouselItems (api : RemoteApi) : List String → Except String (List String)
  | [] => .ok []
  | u :: rest =>
    match api.createItemContainer u with
    | .error e => .error e
    | .ok cid =>
      match createCarouselItems api rest with
      | .error e => .error e
      | .ok ids => .ok (cid :: ids)

/-- `InstagramGraphApiService.createCarouselContainers`: submit each item,
then the parent container whose `children` parameter is the comma-joined id
list; returns the singleton list holding the parent container id. -/
def createCarouselContainers (api : RemoteApi) (imageUrls : List String)
    (caption : String) : Except String (List String) :=
  match createCarouselItems api imageUrls with
  | .error e => .error e
  | .ok ids =>
    match api.createCarouselParent (String.intercalate "," ids) caption with
    | .error e => .error e
    | .ok pid => .ok [pid]

def missingCredsMsg : String := "Missing access token or Instagram account ID"

/-- Container-creation step of `publishPost` (image or carousel branch). -/
def createPostContainer (api : RemoteApi) (post : AdapterPost) : Except String String :=
  match post.postType with
  | .IMAGE =>
    match post.mediaAssets with
    | [a] => api.createImageContainer a.fileUrl (strOrD post.caption "")
    | _ => .error "Image post must have exactly 1 image"
  | .CAROUSEL =>
    match createCarouselContainers api ((carouselOrder post.mediaAssets).map MediaAsset.fileUrl)
        (strOrD post.caption "") with
    | .error e => .error e
    | .ok ids => .ok (ids.headD "")
  | t => .error ("Unsupported post type: " ++ postTypeName t)

/-- Body of the `try` block of `InstagramAdapter.publishPost`: credential
guard, container creation, readiness wait (10 s timeout), publish, post-info
fetch.  An `Except.error` is a thrown fault reaching the adapter's `catch`. -/
def publishPostBody (api : RemoteApi) (post : AdapterPost) : Except String (String × String) :=
  if !(strTruthy post.accessToken) || !(strTruthy post.igAccountId) then
    .error missingCredsMsg
  else
    match createPostContainer api post with
    | .error e => .error e
    | .ok containerId =>
      match waitForContainerReady api.containerStatusAt imageTimeoutMs with
      | .error e => .error e
      | .ok _ =>
        match api.publishContainer containerId with
        | .error e => .error e
        | .ok remoteId =>
          match api.getPostInfo remoteId with
          | .error e => .error e
          | .ok permalink => .ok (remoteId, permalink)

/-- `InstagramAdapter.publishPost`: any thrown fault is caught and returned
as a failure result (`errorCode` is always `'UNKNOWN'` because the graph
service rethrows plain `Error`s without a `response` field). -/
def publishPost (api : RemoteApi) (post : AdapterPost) : PublishResult :=
  match publishPostBody api post with
  | .ok v =>
    { success := true, platformPostId := some v.1, platformPostUrl := some v.2,
      error := none, errorCode := none }
  | .error e =>
    { success := false, platformPostId := none, platformPostUrl := none,
      error := some e, errorCode := some "UNKNOWN" }

/-- Body of the `try` block of `InstagramAdapter.publishReel`: credential
guard, single-video guard, reel container creation, readiness wait (30 s
timeout), publish, post-info fetch. -/
def publishReelBody (api : RemoteApi) (post : AdapterPost) : Except String (String × String) :=
  if !(strTruthy post.accessToken) || !(strTruthy post.igAccountId) then
    .error missingCredsMsg
  else
    match post.mediaAssets with
    | [a] =>
      match api.createReelContainer a.fileUrl (strOrD post.caption "") with
      | .error e => .error e
      | .ok containerId =>
        match waitForContainerReady api.containerStatusAt reelTimeoutMs with
        | .error e => .error e
        | .ok _ =>
          match api.publishContainer containerId with
          | .error e => .error e
          | .ok remoteId =>
            match api.getPostInfo remoteId with
            | .error e => .error e
            | .ok permalink => .ok (remoteId, permalink)
    | _ => .error "Reel must have exactly 1 video"

/-- `InstagramAdapter.publishReel`, with the same catch-all result wrapping
as `publishPost`. -/
def publishReel (api : RemoteApi) (post : AdapterPost) : PublishResult :=
  match publishReelBody api post with
  | .ok v =>
    { success := true, platformPostId := some v.1, platformPostUrl := some v.2,
      error := none, errorCode := none }
  | .error e =>
    { success := false, platformPostId := none, platformPostUrl := none,
      error := some e, errorCode := some "UNKNOWN" }

/-- Prisma `PostStatus` enum (`PENDING | PUBLISHED | FAILED | CANCELLED`). -/
inductive PStatus where
  | PENDING
  | PUBLISHED
  | FAILED
  | CANCELLED
deriving DecidableEq

def statusName : PStatus → String
  | .PENDING => "PENDING"
  | .PUBLISHED => "PUBLISHED"
  | .FAILED => "FAILED"
  | .CANCELLED => "CANCELLED"

/-- The publish-related columns of a `scheduledPost` row touched by the
worker (`status`, `retryCount`, `errorMessage`, `platformPostId`,
`publishedAt`).  `publishedAt` is an abstract timestamp. -/
structure DbPost where
  status : PStatus
  retryCount : Nat
  errorMessage : Option String
  platformPostId : Option String
  publishedAt : Option Nat
deriving DecidableEq

/-- One `jobLog.create` payload (the ExecutionRecord of an attempt). -/
structure LogEntry where
  logStatus : String
  message : String
  logRetryCount : Option Nat
  willRetry : Option Bool
deriving DecidableEq

/-- Value the job callback returns to the queue when it does not rethrow. -/
inductive JobReturn where
  | skipped (reason : String)
  | succeeded (platformPostId : Option String)
  | failedResult (error : Option String) (retryCount : Nat)
  | caught (error : String)
deriving DecidableEq

/-- How one worker execution ends: a returned value, or a rethrown error
(which asks the queue to run the backoff-delayed retry). -/
inductive Outcome where
  | finished (r : JobReturn)
  | rethrow (msg : String)
deriving DecidableEq

/-- Observable effects of one worker execution: final row state, the
`jobLog` entries written in order, the number of `scheduledPost.update`
calls, whether an adapter publish call was made, and the ending. -/
structure WorkerRun where
  db : Option DbPost
  logs : List LogEntry
  updateCount : Nat
  adapterCalled : Bool
  outcome : Outcome
deriving DecidableEq

/-- What the worker reads off the post returned by
`postsService.preparePostForPublishing`. -/
structure Prepared where
  platform : String
  postType : PostType

/-- `platformName.toLowerCase()`, written structurally so it computes. -/
def strToLower (s : String) : String := ⟨s.data.map Char.toLower⟩

/-- `PlatformFactory.getAdapter`: the constructor registers exactly one
adapter under `'instagram'`; lookup lowercases the name and throws
`Platform adapter not found: <name>` on a miss. -/
def getAdapter (platformName : String) : Except String Unit :=
  if strToLower platformName = "instagram" then .ok ()
  else .error ("Platform adapter not found: " ++ platformName)

/-- The worker's `catch` block: re-read the row (`db` is the row state at
that moment), and when it exists increment the retry counter, set the
status to `PENDING` when the new count is `< 3` else `FAILED`, store the
error message, write one `'error'` log entry, and rethrow exactly when the
re-read (pre-increment) counter is `< 2`.  When the row is gone it only
returns a failure value.  `logs`/`updates`/`called` carry the effects
accumulated in the `try` block before the throw. -/
def catchPhase (msg : String) (db : Option DbPost) (logs : List LogEntry)
    (updates : Nat) (called : Bool) : WorkerRun :=
  match db with
  | none => ⟨none, logs, updates, called, .finished (.caught msg)⟩
  | some p =>
    let rc := p.retryCount + 1
    let retry := decide (rc < 3)
    let p' : DbPost :=
      { p with status := if retry then .PENDING else .FAILED,
               retryCount := rc, errorMessage := some msg }
    let lg : LogEntry := ⟨"error", msg, some rc, some retry⟩
    if p.retryCount < 2 then ⟨some p', logs ++ [lg], updates + 1, called, .rethrow msg⟩
    else ⟨some p', logs ++ [lg], updates + 1, called, .finished (.caught msg)⟩

/-- One execution of the `publish-post` job callback in
`setupPublishWorker`, as a function of the outcome of
`preparePostForPublishing` (`prep`, whose `Except.error` is a thrown
fault), the row read at dequeue (`db0`), the outcome of the adapter's
publish call (`adapterResult`, `Except.error` for a thrown fault), and the
abstract current time `now` stored into `publishedAt`. -/
def runWorker (postId : String) (prep : Except String Prepared) (db0 : Option DbPost)
    (adapterResult : Except String PublishResult) (now : Nat) : WorkerRun :=
  match prep with
  | .error e => catchPhase e db0 [] 0 false
  | .ok post =>
    match db0 with
    | none => catchPhase ("Post " ++ postId ++ " not found") none [] 0 false
    | some dbPost =>
      if dbPost.status ≠ .PENDING then
        ⟨some dbPost, [], 0, false,
         .finished (.skipped ("Status is " ++ statusName dbPost.status))⟩
      else
        match getAdapter post.platform with
        | .error e => catchPhase e (some dbPost) [] 0 false
        | .ok _ =>
          match adapterResult with
          | .error e => catchPhase e (some dbPost) [] 0 true
          | .ok result =>
            if result.success then
              let p' : DbPost :=
                { dbPost with
                              status := .PUBLISHED,
                              platformPostId := result.platformPostId,
                              publishedAt := some now, errorMessage := none }
              let lg : LogEntry :=
                ⟨"published",
                 "Post published successfully. Platform Post ID: " ++
                   (result.platformPostId.getD "undefined"), none, none⟩
              ⟨some p', [lg], 1, true, .finished (.succeeded result.platformPostId)⟩
            else
              let rc := dbPost.retryCount + 1
              let retry := decide (rc < 3)
              let p' : DbPost :=
                { dbPost with status := if retry then .PENDING else .FAILED,
                              retryCount := rc,
                              errorMessage := some (strOrD result.error "Unknown error") }
              let lg : LogEntry :=
                ⟨"failed", strOrD result.error "Publish failed", some rc, some retry⟩
              if retry then
                catchPhase (strOrD result.error "Publish failed") (some p') [lg] 1 true
              else
                ⟨some p', [lg], 1, true, .finished (.failedResult result.error rc)⟩

/-- `attempts: 3` from the job options in `SchedulerService.schedulePost`. -/
def jobAttempts : Nat := 3

/-- `backoff: { type: 'exponential', delay: 5000 }` base delay. -/
def jobBackoffBaseMs : Nat := 5000

/-- Delay before the (k+1)-th retry under the queue's exponential backoff
with the configured base. -/
def backoffDelayMs (k : Nat) : Nat := jobBackoffBaseMs * 2 ^ k

/-- An asset passing the carousel/image mime and size checks. -/
def assetImageOk (a : MediaAsset) : Bool := !(imageTypeErr a) && !(imageSizeErr a)

/-- An asset passing the reel mime and size checks. -/
def assetReelOk (a : MediaAsset) : Bool := !(reelTypeErr a) && !(reelSizeErr a)

/-- The media lists `validateMedia` accepts for an IMAGE post. -/
def imageOk (m : List MediaAsset) : Bool :=
  (m.length == 1) &&
  (match m.head? with
   | some a => assetImageOk a
   | none => true)

/-- The media lists `validateMedia` accepts for a CAROUSEL post. -/
def carouselOk (m : List MediaAsset) : Bool :=
  (decide (2 ≤ m.length) && decide (m.length ≤ 10)) && m.all assetImageOk

/-- The media lists `validateMedia` accepts for a REEL post. -/
def reelOk (m : List MediaAsset) : Bool :=
  (m.length == 1) &&
  (match m.head? with
   | some a => assetReelOk a
   | none => true)

/-- Acceptance condition of `validateMedia` by post kind. -/
def mediaRulesOk (m : List MediaAsset) : PostType → Bool
  | .IMAGE => imageOk m
  | .CAROUSEL => carouselOk m
  | .REEL => reelOk m
  | _ => true

/-- Forget an asset's pixel dimensions (used to state that dimensions
influence warnings only, never errors). -/
def stripDims (a : MediaAsset) : MediaAsset := { a with width := none, height := none }

lemma imageErrs_eq_nil (m : List MediaAsset) : imageErrs m = [] ↔ imageOk m = true := by
  match m with
  | [] => simp [imageErrs, imageOk]
  | [a] =>
    cases hT : imageTypeErr a <;> cases hS : imageSizeErr a <;>
      simp [imageErrs, imageOk, assetImageOk, hT, hS]
  | a :: b :: t => simp [imageErrs, imageOk]

lemma reelErrs_eq_nil (m : List MediaAsset) : reelErrs m = [] ↔ reelOk m = true := by
  match m with
  | [] => simp [reelErrs, reelOk]
  | [a] =>
    cases hT : reelTypeErr a <;> cases hS : reelSizeErr a <;>
      simp [reelErrs, reelOk, assetReelOk, hT, hS]
  | a :: b :: t => simp [reelErrs, reelOk]

lemma carErrsFrom_eq_nil :
    ∀ (m : List MediaAsset) (i : Nat), carErrsFrom i m = [] ↔ m.all assetImageOk = true
  | [], i => by simp [carErrsFrom]
  | a :: t, i => by
    have ih := carErrsFrom_eq_nil t (i + 1)
    cases hT : imageTypeErr a <;> cases hS : imageSizeErr a <;>
      simp [carErrsFrom, hT, hS, assetImageOk, ih]

lemma carouselErrs_eq_nil (m : List MediaAsset) :
    carouselErrs m = [] ↔ carouselOk m = true := by
  by_cases hlen : m.length < 2 ∨ m.length > 10
  · have h2 : ¬ (2 ≤ m.length ∧ m.length ≤ 10) := by omega
    simp [carouselErrs, carouselOk, hlen]
    intro h
    omega
  · have h2 : 2 ≤ m.length ∧ m.length ≤ 10 := by omega
    simp [carouselErrs, carouselOk, hlen, h2.1, h2.2, carErrsFrom_eq_nil]

lemma imageErrs_stripDims (m : List MediaAsset) :
    imageErrs (m.map stripDims) = imageErrs m := by
  cases m with
  | nil => rfl
  | cons a t => simp [imageErrs, stripDims, imageTypeErr, imageSizeErr]

lemma reelErrs_stripDims (m : List MediaAsset) :
    reelErrs (m.map stripDims) = reelErrs m := by
  cases m with
  | nil => rfl
  | cons a t => simp [reelErrs, stripDims, reelTypeErr, reelSizeErr]

lemma carErrsFrom_stripDims :
    ∀ (m : List MediaAsset) (i : Nat), carErrsFrom i (m.map stripDims) = carErrsFrom i m
  | [], _ => rfl
  | a :: t, i => by
    simp [carErrsFrom, stripDims, imageTypeErr, imageSizeErr, carErrsFrom_stripDims t (i + 1)]

lemma carouselErrs_stripDims (m : List MediaAsset) :
    carouselErrs (m.map stripDims) = carouselErrs m := by
  simp [carouselErrs, carErrsFrom_stripDims]

/-- C7 counterexample: the claim requires a valid single-image post to carry
an image mime type, but `validateMedia` accepts one asset whose `fileType`
is the empty string (the mime check is guarded by JS truthiness). -/
theorem validateMedia_empty_type_counterexample :
    (validateMedia [⟨"m1", "https://cdn/u1", "", none, none, none, none⟩] .IMAGE).valid = true ∧
    strStartsWith "" "image/" = false := by
  exact ⟨rfl, by decide⟩

/-- C7 (amended): `valid` is exactly emptiness of the error list; the
per-kind rules hold with the source's presence guards (a mime check only
when `fileType` is non-empty, a size check only when `fileSize` is present
and non-zero, counts always); and pixel dimensions never influence the
error list (they produce warnings only). -/
theorem validateMedia_rules (m : List MediaAsset) (k : PostType) :
    ((validateMedia m k).valid = (validateMedia m k).errors.isEmpty) ∧
    ((validateMedia m k).valid = mediaRulesOk m k) ∧
    ((validateMedia (m.map stripDims) k).errors = (validateMedia m k).errors) := by
  refine ⟨rfl, ?_, ?_⟩
  · have hI : (validateMedia m .IMAGE).valid = (imageErrs m).isEmpty := by
      simp [validateMedia]
    have hC : (validateMedia m .CAROUSEL).valid = (carouselErrs m).isEmpty := by
      simp [validateMedia]
    have hR : (validateMedia m .REEL).valid = (reelErrs m).isEmpty := by
      simp [validateMedia]
    cases k
    · rw [hI, mediaRulesOk, Bool.eq_iff_iff, List.isEmpty_iff]
      exact imageErrs_eq_nil m
    · rw [hC, mediaRulesOk, Bool.eq_iff_iff, List.isEmpty_iff]
      exact carouselErrs_eq_nil m
    · rw [hR, mediaRulesOk, Bool.eq_iff_iff, List.isEmpty_iff]
      exact reelErrs_eq_nil m
    · simp [validateMedia, mediaRulesOk]
    · simp [validateMedia, mediaRulesOk]
  · cases k <;>
      simp [validateMedia, imageErrs_stripDims, carouselErrs_stripDims, reelErrs_stripDims]

/-- C7 witness: concrete instance of the amended rule characterisation. -/
theorem validateMedia_rules_witness :
    (validateMedia [⟨"m1", "u1", "image/jpeg", some 1000, some 500, some 500, none⟩]
        .IMAGE).valid = mediaRulesOk
        [⟨"m1", "u1", "image/jpeg", some 1000, some 500, some 500, none⟩] .IMAGE :=
  (validateMedia_rules [⟨"m1", "u1", "image/jpeg", some 1000, some 500, some 500, none⟩]
    .IMAGE).2.1

/-- C6 counterexample: a single-image call with exactly 2 assets yields two
errors (not exactly one) when the first asset also fails the mime check. -/
theorem validateMedia_two_assets_counterexample :
    (validateMedia [⟨"m1", "u1", "video/mp4", none, none, none, none⟩,
                    ⟨"m2", "u2", "image/png", none, none, none, none⟩] .IMAGE).errors.length = 2 ∧
    ¬ (validateMedia [⟨"m1", "u1", "video/mp4", none, none, none, none⟩,
                    ⟨"m2", "u2", "image/png", none, none, none, none⟩] .IMAGE).errors.length = 1 := by
  decide

/-- C6 (amended): `validateMedia` is a pure function (identical inputs give
identical results), and an IMAGE call with exactly 2 assets always reports
the error mentioning "exactly 1 image"; that error is the only one exactly
when the first asset raises no mime or size error. -/
theorem validateMedia_two_assets (a b : MediaAsset) :
    (∀ (m : List MediaAsset) (q : PostType), validateMedia m q = validateMedia m q) ∧
    "Image post must have exactly 1 image" ∈ (validateMedia [a, b] .IMAGE).errors ∧
    (imageTypeErr a = false → imageSizeErr a = false →
      (validateMedia [a, b] .IMAGE).errors = ["Image post must have exactly 1 image"]) := by
  refine ⟨fun _ _ => rfl, ?_, ?_⟩
  · simp [validateMedia, imageErrs]
  · intro hT hS
    simp [validateMedia, imageErrs, hT, hS]

/-- C6 witness: concrete 2-asset instance with a clean first asset. -/
theorem validateMedia_two_assets_witness :
    (validateMedia [⟨"m1", "u1", "image/png", none, none, none, none⟩,
                    ⟨"m2", "u2", "image/png", none, none, none, none⟩] .IMAGE).errors =
      ["Image post must have exactly 1 image"] :=
  (validateMedia_two_assets ⟨"m1", "u1", "image/png", none, none, none, none⟩
    ⟨"m2", "u2", "image/png", none, none, none, none⟩).2.2 (by decide) (by decide)

/-- C10: the mime, size, and dimension rules fire only when the
corresponding metadata is present (JavaScript truthiness): an empty
`fileType` raises no mime error, an absent `fileSize` raises no size
error, absent dimensions raise no warnings; a single-image call with one
such bare asset is valid, and for a carousel only the count rule fires. -/
theorem validateMedia_presence_guards (k : PostType) (i u : String) (p : Option Nat) :
    (validateMedia [⟨i, u, "", none, none, none, p⟩] .IMAGE =
      { valid := true, errors := [], warnings := [] }) ∧
    (validateMedia [⟨i, u, "", none, none, none, p⟩] .REEL =
      { valid := true, errors := [], warnings := [] }) ∧
    ((validateMedia [⟨i, u, "", none, none, none, p⟩] .CAROUSEL).errors =
      ["Carousel post must have between 2 and 10 images"]) ∧
    ((validateMedia [⟨i, u, "", none, none, none, p⟩] k).warnings = []) ∧
    (validateMedia [⟨i, u, "image/png", none, none, none, p⟩] .IMAGE =
      { valid := true, errors := [], warnings := [] }) ∧
    (validateMedia [⟨i, u, "video/mp4", none, none, none, p⟩] .REEL =
      { valid := true, errors := [], warnings := [] }) := by
  refine ⟨rfl, rfl, rfl, ?_, rfl, rfl⟩
  cases k <;> rfl

/-- A remote endpoint where every call succeeds and containers finish
immediately (used to instantiate universally quantified theorems). -/
def demoApi : RemoteApi :=
  ⟨fun _ _ => .ok "c1", fun u => .ok ("id-" ++ u), fun _ _ => .ok "car1",
   fun _ _ => .ok "r1", fun _ => ⟨"FINISHED", "ok"⟩, fun _ => .ok "post1",
   fun _ => .ok "https://ig/p/post1"⟩

/-- Like `demoApi` but the container never leaves `IN_PROGRESS`. -/
def stuckApi : RemoteApi :=
  { demoApi with containerStatusAt := fun _ => ⟨"IN_PROGRESS", ""⟩ }

def demoAsset : MediaAsset := ⟨"m1", "u1", "image/png", none, none, none, none⟩

/-- C4 counterexample: the claim says a missing access credential throws to
the caller, but `publishPost` catches its own `Missing access token or
Instagram account ID` error and returns it as a failure result. -/
theorem publish_missing_creds_counterexample :
    publishPost demoApi ⟨.IMAGE, some "cap", [demoAsset], none, some "ig9"⟩ =
      { success := false, platformPostId := none, platformPostUrl := none,
        error := some missingCredsMsg, errorCode := some "UNKNOWN" } := rfl

/-- C4 (amended): `publishPost` and `publishReel` never throw at all — every
fault of the publish protocol body, including the missing-credential guard,
is returned as a `{success := false, error, errorCode}` result, and every
failure result carries an error message and the `UNKNOWN` code. -/
theorem publish_never_throws (api : RemoteApi) (post : AdapterPost) :
    (∀ e, publishPostBody api post = .error e →
      publishPost api post =
        { success := false, platformPostId := none, platformPostUrl := none,
          error := some e, errorCode := some "UNKNOWN" }) ∧
    (∀ v, publishPostBody api post = .ok v →
      publishPost api post =
        { success := true, platformPostId := some v.1, platformPostUrl := some v.2,
          error := none, errorCode := none }) ∧
    ((publishPost api post).success = false →
      (publishPost api post).error.isSome = true ∧
      (publishPost api post).errorCode = some "UNKNOWN") ∧
    (∀ e, publishReelBody api post = .error e →
      publishReel api post =
        { success := false, platformPostId := none, platformPostUrl := none,
          error := some e, errorCode := some "UNKNOWN" }) ∧
    (∀ v, publishReelBody api post = .ok v →
      publishReel api post =
        { success := true, platformPostId := some v.1, platformPostUrl := some v.2,
          error := none, errorCode := none }) ∧
    ((publishReel api post).success = false →
      (publishReel api post).error.isSome = true ∧
      (publishReel api post).errorCode = some "UNKNOWN") := by
  refine ⟨?_, ?_, ?_, ?_, ?_, ?_⟩
  · intro e he
    simp [publishPost, he]
  · intro v hv
    simp [publishPost, hv]
  · cases hb : publishPostBody api post <;> simp [publishPost, hb]
  · intro e he
    simp [publishReel, he]
  · intro v hv
    simp [publishReel, hv]
  · cases hb : publishReelBody api post <;> simp [publishReel, hb]

/-- C4 witness: the amended theorem applied to the missing-credential post. -/
theorem publish_never_throws_witness :
    publishPost demoApi ⟨.IMAGE, some "cap", [demoAsset], none, some "ig9"⟩ =
      { success := false, platformPostId := none, platformPostUrl := none,
        error := some missingCredsMsg, errorCode := some "UNKNOWN" } :=
  (publish_never_throws demoApi ⟨.IMAGE, some "cap", [demoAsset], none, some "ig9"⟩).1
    missingCredsMsg rfl

lemma waitLoop_timeout (s : Nat → ContainerStatus) :
    ∀ (fuel k : Nat),
      (∀ j, j < fuel → (s (k + j)).code ≠ "FINISHED" ∧ (s (k + j)).code ≠ "ERROR") →
      waitLoop s fuel k = .error "Container processing timeout"
  | 0, _, _ => rfl
  | fuel + 1, k, h => by
    have h0 := h 0 (Nat.succ_pos fuel)
    simp only [Nat.add_zero] at h0
    have hrest : ∀ j, j < fuel →
        (s (k + 1 + j)).code ≠ "FINISHED" ∧ (s (k + 1 + j)).code ≠ "ERROR" := by
      intro j hj
      have := h (j + 1) (by omega)
      have harith : k + (j + 1) = k + 1 + j := by omega
      rwa [harith] at this
    simp [waitLoop, h0.1, h0.2, waitLoop_timeout s fuel (k + 1) hrest]

lemma waitLoop_not_ok (s : Nat → ContainerStatus) :
    ∀ (fuel k : Nat), (∀ j, j < fuel → (s (k + j)).code ≠ "FINISHED") →
      ∀ u, waitLoop s fuel k ≠ .ok u
  | 0, _, _, _ => by simp [waitLoop]
  | fuel + 1, k, h, u => by
    have h0 := h 0 (Nat.succ_pos fuel)
    simp only [Nat.add_zero] at h0
    have hrest : ∀ j, j < fuel → (s (k + 1 + j)).code ≠ "FINISHED" := by
      intro j hj
      have := h (j + 1) (by omega)
      have harith : k + (j + 1) = k + 1 + j := by omega
      rwa [harith] at this
    by_cases herr : (s k).code = "ERROR"
    · simp [waitLoop, h0, herr]
    · simp [waitLoop, h0, herr]
      exact waitLoop_not_ok s fuel (k + 1) hrest u

lemma waitLoop_error_at (s : Nat → ContainerStatus) :
    ∀ (fuel k j : Nat), j < fuel →
      (∀ j', j' < j → (s (k + j')).code ≠ "FINISHED" ∧ (s (k + j')).code ≠ "ERROR") →
      (s (k + j)).code = "ERROR" →
      waitLoop s fuel k =
        .error ("Container processing failed: " ++
          (if (s (k + j)).statusMsg = "" then "Unknown error" else (s (k + j)).statusMsg))
  | 0, _, j, hj, _, _ => absurd hj (Nat.not_lt_zero j)
  | fuel + 1, k, 0, _, _, herr => by
    simp only [Nat.add_zero] at herr
    have hfin : (s k).code ≠ "FINISHED" := by
      rw [herr]
      decide
    simp [waitLoop, hfin, herr]
  | fuel + 1, k, j + 1, hj, hpre, herr => by
    have h0 := hpre 0 (Nat.succ_pos j)
    simp only [Nat.add_zero] at h0
    have hpre' : ∀ j', j' < j → (s (k + 1 + j')).code ≠ "FINISHED" ∧
        (s (k + 1 + j')).code ≠ "ERROR" := by
      intro j' hj'
      have := hpre (j' + 1) (by omega)
      have harith : k + (j' + 1) = k + 1 + j' := by omega
      rwa [harith] at this
    have herr' : (s (k + 1 + j)).code = "ERROR" := by
      have harith : k + (j + 1) = k + 1 + j := by omega
      rwa [harith] at herr
    have ih := waitLoop_error_at s fuel (k + 1) j (by omega) hpre' herr'
    have harith : k + (j + 1) = k + 1 + j := by omega
    rw [harith]
    simp [waitLoop, h0.1, h0.2, ih]

lemma publishPost_success_needs_wait (api : RemoteApi) (post : AdapterPost)
    (hw : ∀ u, waitForContainerReady api.containerStatusAt imageTimeoutMs ≠ .ok u) :
    (publishPost api post).success = false := by
  unfold publishPost publishPostBody
  by_cases hcred : (!strTruthy post.accessToken || !strTruthy post.igAccountId) = true
  · simp [hcred]
  · simp only [hcred]
    cases hc : createPostContainer api post with
    | error e => simp
    | ok cid =>
      cases hwv : waitForContainerReady api.containerStatusAt imageTimeoutMs with
      | error e => simp
      | ok u => exact absurd hwv (hw u)

lemma publishReel_success_needs_wait (api : RemoteApi) (post : AdapterPost)
    (hw : ∀ u, waitForContainerReady api.containerStatusAt reelTimeoutMs ≠ .ok u) :
    (publishReel api post).success = false := by
  unfold publishReel publishReelBody
  by_cases hcred : (!strTruthy post.accessToken || !strTruthy post.igAccountId) = true
  · simp [hcred]
  · simp only [hcred]
    cases hm : post.mediaAssets with
    | nil => simp
    | cons a t =>
      cases t with
      | cons b t2 => simp
      | nil =>
        cases hc : api.createReelContainer a.fileUrl (strOrD post.caption "") with
        | error e => simp [hc]
        | ok cid =>
          cases hwv : waitForContainerReady api.containerStatusAt reelTimeoutMs with
          | error e => simp [hc, hwv]
          | ok u => exact absurd hwv (hw u)

/-- C8: if no poll within the timeout window observes `FINISHED` then the
wait is a fault — the timeout fault when nothing terminal is observed — and
the publish result cannot be `success := true` (10 s window for
image/carousel, 30 s for reels, one poll per 2 s interval); a first
observation of `ERROR` faults immediately with the remote status message. -/
theorem container_poll_timeout (api : RemoteApi) (post : AdapterPost) (t : Nat) :
    ((∀ k, k < pollLimit t →
        (api.containerStatusAt k).code ≠ "FINISHED" ∧
        (api.containerStatusAt k).code ≠ "ERROR") →
      waitForContainerReady api.containerStatusAt t = .error "Container processing timeout") ∧
    ((∀ k, k < pollLimit imageTimeoutMs → (api.containerStatusAt k).code ≠ "FINISHED") →
      (publishPost api post).success = false) ∧
    ((∀ k, k < pollLimit reelTimeoutMs → (api.containerStatusAt k).code ≠ "FINISHED") →
      (publishReel api post).success = false) ∧
    (∀ j, j < pollLimit t →
      (∀ j', j' < j →
        (api.containerStatusAt j').code ≠ "FINISHED" ∧
        (api.containerStatusAt j').code ≠ "ERROR") →
      (api.containerStatusAt j).code = "ERROR" →
      waitForContainerReady api.containerStatusAt t =
        .error ("Container processing failed: " ++
          (if (api.containerStatusAt j).statusMsg = "" then "Unknown error"
           else (api.containerStatusAt j).statusMsg))) := by
  refine ⟨?_, ?_, ?_, ?_⟩
  · intro h
    exact waitLoop_timeout api.containerStatusAt (pollLimit t) 0 (by simpa using h)
  · intro h
    refine publishPost_success_needs_wait api post ?_
    exact waitLoop_not_ok api.containerStatusAt (pollLimit imageTimeoutMs) 0
      (by simpa using fun k hk => (h k hk))
  · intro h
    refine publishReel_success_needs_wait api post ?_
    exact waitLoop_not_ok api.containerStatusAt (pollLimit reelTimeoutMs) 0
      (by simpa using fun k hk => (h k hk))
  · intro j hj hpre herr
    have := waitLoop_error_at api.containerStatusAt (pollLimit t) 0 j hj
      (by simpa using hpre) (by simpa using herr)
    simpa using this

/-- C8 witness: an always-`IN_PROGRESS` trace yields the timeout fault and a
failed publish for both post families; an `ERROR` at the third poll yields
the immediate fault with the remote message. -/
theorem container_poll_timeout_witness :
    waitForContainerReady stuckApi.containerStatusAt 10000 =
      .error "Container processing timeout" ∧
    (publishPost stuckApi ⟨.IMAGE, some "cap", [demoAsset], some "tok", some "ig9"⟩).success
      = false ∧
    (publishReel stuckApi ⟨.REEL, some "cap", [demoAsset], some "tok", some "ig9"⟩).success
      = false ∧
    waitForContainerReady
      (fun k => if k = 2 then ⟨"ERROR", "bad media"⟩ else ⟨"IN_PROGRESS", ""⟩) 10000 =
      .error "Container processing failed: bad media" := by
  have h1 := (container_poll_timeout stuckApi
    ⟨.IMAGE, some "cap", [demoAsset], some "tok", some "ig9"⟩ 10000).1 (by decide)
  have h2 := (container_poll_timeout stuckApi
    ⟨.IMAGE, some "cap", [demoAsset], some "tok", some "ig9"⟩ 10000).2.1 (by decide)
  have h3 := (container_poll_timeout stuckApi
    ⟨.REEL, some "cap", [demoAsset], some "tok", some "ig9"⟩ 10000).2.2.1 (by decide)
  have h4 := (container_poll_timeout
    { demoApi with containerStatusAt :=
        fun k => if k = 2 then ⟨"ERROR", "bad media"⟩ else ⟨"IN_PROGRESS", ""⟩ }
    ⟨.IMAGE, some "cap", [demoAsset], some "tok", some "ig9"⟩ 10000).2.2.2 2 (by decide)
    (by decide) (by decide)
  exact ⟨h1, h2, h3, by simpa using h4⟩

lemma createCarouselItems_pairing (api : RemoteApi) :
    ∀ (urls : List String) (ids : List String),
      createCarouselItems api urls = .ok ids →
      List.Forall₂ (fun u cid => api.createItemContainer u = .ok cid) urls ids
  | [], ids, h => by
    simp only [createCarouselItems] at h
    cases h
    exact List.Forall₂.nil
  | u :: rest, ids, h => by
    simp only [createCarouselItems] at h
    cases hu : api.createItemContainer u with
    | error e => rw [hu] at h; cases h
    | ok cid =>
      rw [hu] at h
      cases hr : createCarouselItems api rest with
      | error e => rw [hr] at h; cases h
      | ok restIds =>
        rw [hr] at h
        cases h
        exact List.Forall₂.cons hu (createCarouselItems_pairing api rest restIds hr)

/-- C9: the carousel branch submits the post's assets in ascending order of
their `position || 0` key (the submitted sequence is sorted on that key and
is a permutation of the asset list); the i-th obtained container id comes
from the i-th submitted URL; and the parent carousel container receives
exactly the comma-joined id list in that order. -/
theorem carousel_submission_order (api : RemoteApi) (post : AdapterPost)
    (hk : post.postType = .CAROUSEL) :
    List.Pairwise (fun a b => positionKey a ≤ positionKey b)
      (carouselOrder post.mediaAssets) ∧
    (carouselOrder post.mediaAssets).Perm post.mediaAssets ∧
    (∀ pid, createCarouselContainers api
        ((carouselOrder post.mediaAssets).map MediaAsset.fileUrl)
        (strOrD post.caption "") = .ok [pid] →
      createPostContainer api post = .ok pid) ∧
    (∀ ids, createCarouselItems api
        ((carouselOrder post.mediaAssets).map MediaAsset.fileUrl) = .ok ids →
      List.Forall₂ (fun u cid => api.createItemContainer u = .ok cid)
        ((carouselOrder post.mediaAssets).map MediaAsset.fileUrl) ids ∧
      ∀ pid, api.createCarouselParent (String.intercalate "," ids)
          (strOrD post.caption "") = .ok pid →
        createCarouselContainers api
          ((carouselOrder post.mediaAssets).map MediaAsset.fileUrl)
          (strOrD post.caption "") = .ok [pid]) := by
  haveI : IsTotal MediaAsset (fun a b => positionKey a ≤ positionKey b) :=
    ⟨fun a b => Nat.le_total (positionKey a) (positionKey b)⟩
  haveI : IsTrans MediaAsset (fun a b => positionKey a ≤ positionKey b) :=
    ⟨fun _ _ _ => Nat.le_trans⟩
  refine ⟨?_, ?_, ?_, ?_⟩
  · exact List.sorted_insertionSort _ post.mediaAssets
  · exact List.perm_insertionSort _ post.mediaAssets
  · intro pid hpid
    simp [createPostContainer, hk, hpid]
  · intro ids hids
    refine ⟨createCarouselItems_pairing api _ ids hids, ?_⟩
    intro pid hpid
    simp [createCarouselContainers, hids, hpid]

/-- C9 witness: assets at positions `[2, 0, 1]` are submitted in the order
`[pos0, pos1, pos2]`, their ids pair up positionally, and the parent
receives the joined id list. -/
theorem carousel_submission_order_witness :
    ((carouselOrder
        [⟨"a", "u2", "image/png", none, none, none, some 2⟩,
         ⟨"b", "u0", "image/png", none, none, none, some 0⟩,
         ⟨"c", "u1", "image/png", none, none, none, some 1⟩]).map MediaAsset.fileUrl =
      ["u0", "u1", "u2"]) ∧
    List.Forall₂ (fun u cid => demoApi.createItemContainer u = .ok cid)
      ["u0", "u1", "u2"] ["id-u0", "id-u1", "id-u2"] ∧
    createCarouselContainers demoApi ["u0", "u1", "u2"] "cap" = .ok ["car1"] := by
  have h := carousel_submission_order demoApi
    ⟨.CAROUSEL, some "cap",
      [⟨"a", "u2", "image/png", none, none, none, some 2⟩,
       ⟨"b", "u0", "image/png", none, none, none, some 0⟩,
       ⟨"c", "u1", "image/png", none, none, none, some 1⟩], some "tok", some "ig9"⟩ rfl
  have horder :
      (carouselOrder
        [⟨"a", "u2", "image/png", none, none, none, some 2⟩,
         ⟨"b", "u0", "image/png", none, none, none, some 0⟩,
         ⟨"c", "u1", "image/png", none, none, none, some 1⟩]).map MediaAsset.fileUrl =
        ["u0", "u1", "u2"] := by decide

  have hpair := (h.2.2.2 ["id-u0", "id-u1", "id-u2"] (by rw [horder]; rfl))
  refine ⟨horder, ?_, ?_⟩
  · rw [horder] at hpair
    exact hpair.1
  · have := hpair.2 "car1" rfl
    rwa [horder] at this


/-- `catchPhase` on an existing row, in closed form. -/
lemma catchPhase_some (msg : String) (p : DbPost) (logs : List LogEntry)
    (updates : Nat) (called : Bool) :
    catchPhase msg (some p) logs updates called =
      ⟨some { p with
              status := (if p.retryCount + 1 < 3 then .PENDING else .FAILED),
              retryCount := p.retryCount + 1, errorMessage := some msg },
       logs ++ [⟨"error", msg, some (p.retryCount + 1), some (decide (p.retryCount + 1 < 3))⟩],
       updates + 1, called,
       if p.retryCount < 2 then .rethrow msg else .finished (.caught msg)⟩ := by
  simp only [catchPhase]
  by_cases h : p.retryCount < 2
  · have h3 : p.retryCount + 1 < 3 := by omega
    simp [h, h3]
  · have h3 : ¬ p.retryCount + 1 < 3 := by omega
    simp [h, h3]

lemma runWorker_prep_error (pid e : String) (db0 : Option DbPost)
    (ar : Except String PublishResult) (now : Nat) :
    runWorker pid (.error e) db0 ar now = catchPhase e db0 [] 0 false := by
  cases db0 <;> rfl

lemma runWorker_skip (pid : String) (post : Prepared) (p : DbPost)
    (ar : Except String PublishResult) (now : Nat) (h : p.status ≠ .PENDING) :
    runWorker pid (.ok post) (some p) ar now =
      ⟨some p, [], 0, false,
       .finished (.skipped ("Status is " ++ statusName p.status))⟩ := by
  simp only [runWorker]
  rw [if_pos h]

lemma runWorker_unknown_platform (pid e : String) (post : Prepared) (p : DbPost)
    (ar : Except String PublishResult) (now : Nat) (hp : p.status = .PENDING)
    (had : getAdapter post.platform = .error e) :
    runWorker pid (.ok post) (some p) ar now = catchPhase e (some p) [] 0 false := by
  simp only [runWorker]
  rw [if_neg (by simp [hp]), had]

lemma runWorker_adapter_throw (pid e : String) (post : Prepared) (p : DbPost)
    (now : Nat) (hp : p.status = .PENDING) (had : getAdapter post.platform = .ok ()) :
    runWorker pid (.ok post) (some p) (.error e) now = catchPhase e (some p) [] 0 true := by
  simp only [runWorker]
  rw [if_neg (by simp [hp]), had]

lemma runWorker_adapter_ok (pid : String) (post : Prepared) (p : DbPost)
    (res : PublishResult) (now : Nat) (hp : p.status = .PENDING)
    (had : getAdapter post.platform = .ok ()) :
    runWorker pid (.ok post) (some p) (.ok res) now =
      if res.success then
        ⟨some { p with
                status := .PUBLISHED, platformPostId := res.platformPostId,
                publishedAt := some now, errorMessage := none },
         [⟨"published",
           "Post published successfully. Platform Post ID: " ++
             (res.platformPostId.getD "undefined"), none, none⟩],
         1, true, .finished (.succeeded res.platformPostId)⟩
      else if decide (p.retryCount + 1 < 3) then
        catchPhase (strOrD res.error "Publish failed")
          (some { p with
                  status := .PENDING, retryCount := p.retryCount + 1,
                  errorMessage := some (strOrD res.error "Unknown error") })
          [⟨"failed", strOrD res.error "Publish failed",
            some (p.retryCount + 1), some true⟩] 1 true
      else
        ⟨some { p with
                status := .FAILED, retryCount := p.retryCount + 1,
                errorMessage := some (strOrD res.error "Unknown error") },
         [⟨"failed", strOrD res.error "Publish failed",
           some (p.retryCount + 1), some false⟩],
         1, true, .finished (.failedResult res.error (p.retryCount + 1))⟩ := by
  simp only [runWorker]
  rw [if_neg (by simp [hp]), had]
  cases hs : res.success
  · simp only [Bool.false_eq_true, if_false]
    by_cases h3 : p.retryCount + 1 < 3
    · simp [h3]
    · simp [h3]
  · simp

def okResult : PublishResult := ⟨true, some "ig-post-1", some "https://ig/p/1", none, none⟩

def failResult : PublishResult := ⟨false, none, none, some "boom", some "190"⟩

/-- C1 counterexample: a worker execution in which `preparePostForPublishing`
throws (e.g. a failed token refresh) lands in the `catch` block, which
mutates a `PUBLISHED` post — setting it back to `PENDING` with an
incremented retry counter and an error message — because the catch path
never re-checks the persisted status. -/
theorem worker_terminal_mutation_counterexample :
    (runWorker "p1" (.error "Failed to refresh token: boom")
        (some ⟨.PUBLISHED, 0, none, some "ig-post-1", some 5⟩) (.ok okResult) 7).db =
      some ⟨.PENDING, 1, some "Failed to refresh token: boom", some "ig-post-1", some 5⟩ ∧
    (runWorker "p1" (.error "Failed to refresh token: boom")
        (some ⟨.PUBLISHED, 0, none, some "ig-post-1", some 5⟩) (.ok okResult) 7).db ≠
      some ⟨.PUBLISHED, 0, none, some "ig-post-1", some 5⟩ := by
  exact ⟨rfl, by decide⟩

/-- C1 (amended): when the early steps do not throw — the worker reaches the
dequeue-time status re-read — a post whose persisted status is not `PENDING`
(in particular `PUBLISHED` or `CANCELLED`) is left completely unchanged: no
update, no log entry, no publish attempt, and the job returns a skip
outcome.  (If an early step throws, the catch path mutates the post
regardless of its status, as the counterexample shows.) -/
theorem worker_skips_terminal (pid : String) (post : Prepared) (p : DbPost)
    (ar : Except String PublishResult) (now : Nat) (h : p.status ≠ .PENDING) :
    runWorker pid (.ok post) (some p) ar now =
      ⟨some p, [], 0, false,
       .finished (.skipped ("Status is " ++ statusName p.status))⟩ :=
  runWorker_skip pid post p ar now h

/-- C1 witness: a `CANCELLED` post is skipped untouched. -/
theorem worker_skips_terminal_witness :
    runWorker "p1" (.ok ⟨"instagram", .IMAGE⟩) (some ⟨.CANCELLED, 0, none, none, none⟩)
        (.ok failResult) 3 =
      ⟨some ⟨.CANCELLED, 0, none, none, none⟩, [], 0, false,
       .finished (.skipped "Status is CANCELLED")⟩ :=
  worker_skips_terminal "p1" ⟨"instagram", .IMAGE⟩ ⟨.CANCELLED, 0, none, none, none⟩
    (.ok failResult) 3 (by decide)

/-- C2 counterexample: a publish job for an unregistered platform is not a
terminal failure on first occurrence — the thrown lookup error goes through
the generic catch path, which sets the post back to `PENDING` (not `FAILED`)
and rethrows to trigger a queue retry. -/
theorem unknown_platform_counterexample :
    runWorker "p2" (.ok ⟨"youtube", .IMAGE⟩) (some ⟨.PENDING, 0, none, none, none⟩)
        (.ok okResult) 0 =
      ⟨some ⟨.PENDING, 1, some "Platform adapter not found: youtube", none, none⟩,
       [⟨"error", "Platform adapter not found: youtube", some 1, some true⟩],
       1, false, .rethrow "Platform adapter not found: youtube"⟩ ∧
    (runWorker "p2" (.ok ⟨"youtube", .IMAGE⟩) (some ⟨.PENDING, 0, none, none, none⟩)
        (.ok okResult) 0).db.map DbPost.status ≠ some .FAILED := by
  exact ⟨by decide, by decide⟩

/-- C2 (amended): an unknown platform is handled like any thrown fault, not
as a configuration error: the retry counter is incremented, the error
message stored, the status set to `PENDING` while the new count is below 3
(else `FAILED`), and the error is rethrown for a backoff retry exactly when
the pre-attempt counter was below 2.  No publish attempt is made. -/
theorem unknown_platform_retried (pid e : String) (post : Prepared) (p : DbPost)
    (ar : Except String PublishResult) (now : Nat) (hp : p.status = .PENDING)
    (had : getAdapter post.platform = .error e) :
    (runWorker pid (.ok post) (some p) ar now).db =
      some { p with
             status := (if p.retryCount + 1 < 3 then .PENDING else .FAILED),
             retryCount := p.retryCount + 1, errorMessage := some e } ∧
    (runWorker pid (.ok post) (some p) ar now).outcome =
      (if p.retryCount < 2 then .rethrow e else .finished (.caught e)) ∧
    (runWorker pid (.ok post) (some p) ar now).adapterCalled = false := by
  rw [runWorker_unknown_platform pid e post p ar now hp had, catchPhase_some]
  exact ⟨rfl, rfl, rfl⟩

/-- C2 witness: first-occurrence unknown platform on a fresh pending post
ends `PENDING` with counter 1 and a rethrow (a retry), not `FAILED`. -/
theorem unknown_platform_retried_witness :
    (runWorker "p2" (.ok ⟨"youtube", .IMAGE⟩) (some ⟨.PENDING, 0, none, none, none⟩)
        (.ok okResult) 0).db =
      some ⟨.PENDING, 1, some "Platform adapter not found: youtube", none, none⟩ ∧
    (runWorker "p2" (.ok ⟨"youtube", .IMAGE⟩) (some ⟨.PENDING, 0, none, none, none⟩)
        (.ok okResult) 0).outcome = .rethrow "Platform adapter not found: youtube" := by
  have h := unknown_platform_retried "p2" "Platform adapter not found: youtube"
    ⟨"youtube", .IMAGE⟩ ⟨.PENDING, 0, none, none, none⟩ (.ok okResult) 0 rfl rfl
  exact ⟨h.1, h.2.1⟩

/-- C3 counterexample: a retryable adapter-reported failure writes two
ExecutionRecords (one `'failed'`, then the catch's `'error'`) and performs
two status/retry-counter updates in a single attempt, because the
result-failure branch throws after logging and the catch block runs again. -/
theorem single_record_counterexample :
    (runWorker "p3" (.ok ⟨"instagram", .IMAGE⟩) (some ⟨.PENDING, 0, none, none, none⟩)
        (.ok failResult) 0).logs.length = 2 ∧
    (runWorker "p3" (.ok ⟨"instagram", .IMAGE⟩) (some ⟨.PENDING, 0, none, none, none⟩)
        (.ok failResult) 0).updateCount = 2 ∧
    (runWorker "p3" (.ok ⟨"instagram", .IMAGE⟩) (some ⟨.PENDING, 0, none, none, none⟩)
        (.ok failResult) 0).logs.map LogEntry.logStatus = ["failed", "error"] := by
  exact ⟨by decide, by decide, by decide⟩

/-- C3 (amended): per attempt, a success writes exactly one ExecutionRecord
and one update; a terminal (non-retryable) adapter-reported failure writes
one of each; a retryable adapter-reported failure writes two of each; a
thrown fault with the row still present writes one of each; and a skip
(status no longer `PENDING`) writes none — there is no skip record. -/
theorem execution_record_counts (pid : String) (post : Prepared) (p : DbPost)
    (res : PublishResult) (e : String) (now : Nat)
    (hplat : getAdapter post.platform = .ok ()) :
    (p.status = .PENDING → res.success = true →
      (runWorker pid (.ok post) (some p) (.ok res) now).logs.length = 1 ∧
      (runWorker pid (.ok post) (some p) (.ok res) now).updateCount = 1) ∧
    (p.status = .PENDING → res.success = false → p.retryCount + 1 < 3 →
      (runWorker pid (.ok post) (some p) (.ok res) now).logs.length = 2 ∧
      (runWorker pid (.ok post) (some p) (.ok res) now).updateCount = 2) ∧
    (p.status = .PENDING → res.success = false → ¬ p.retryCount + 1 < 3 →
      (runWorker pid (.ok post) (some p) (.ok res) now).logs.length = 1 ∧
      (runWorker pid (.ok post) (some p) (.ok res) now).updateCount = 1) ∧
    (p.status = .PENDING →
      (runWorker pid (.ok post) (some p) (.error e) now).logs.length = 1 ∧
      (runWorker pid (.ok post) (some p) (.error e) now).updateCount = 1) ∧
    ((runWorker pid (.error e) (some p) (.ok res) now).logs.length = 1 ∧
      (runWorker pid (.error e) (some p) (.ok res) now).updateCount = 1) ∧
    (p.status ≠ .PENDING →
      (runWorker pid (.ok post) (some p) (.ok res) now).logs.length = 0 ∧
      (runWorker pid (.ok post) (some p) (.ok res) now).updateCount = 0) := by
  refine ⟨?_, ?_, ?_, ?_, ?_, ?_⟩
  · intro hp hs
    rw [runWorker_adapter_ok pid post p res now hp hplat]
    simp [hs]
  · intro hp hs h3
    rw [runWorker_adapter_ok pid post p res now hp hplat]
    simp [hs, h3, catchPhase_some]
  · intro hp hs h3
    rw [runWorker_adapter_ok pid post p res now hp hplat]
    simp [hs, h3]
  · intro hp
    rw [runWorker_adapter_throw pid e post p now hp hplat, catchPhase_some]
    exact ⟨rfl, rfl⟩
  · rw [runWorker_prep_error pid e (some p) (.ok res) now, catchPhase_some]
    exact ⟨rfl, rfl⟩
  · intro hp
    rw [runWorker_skip pid post p (.ok res) now hp]
    exact ⟨rfl, rfl⟩

/-- C3 witness: the success path at a concrete input writes exactly one
record and one update. -/
theorem execution_record_counts_witness :
    (runWorker "p3" (.ok ⟨"instagram", .IMAGE⟩) (some ⟨.PENDING, 0, none, none, none⟩)
        (.ok okResult) 0).logs.length = 1 ∧
    (runWorker "p3" (.ok ⟨"instagram", .IMAGE⟩) (some ⟨.PENDING, 0, none, none, none⟩)
        (.ok okResult) 0).updateCount = 1 :=
  (execution_record_counts "p3" ⟨"instagram", .IMAGE⟩ ⟨.PENDING, 0, none, none, none⟩
    okResult "e" 0 rfl).1 rfl rfl

/-- C5 counterexample: an adapter-reported failure on a fresh pending post
(counter 0) leaves the persisted retry counter at 2, not 1 — the
result-failure branch increments once, then its rethrow lands in the catch
block which increments again. -/
theorem retry_increment_counterexample :
    (runWorker "p5" (.ok ⟨"instagram", .IMAGE⟩) (some ⟨.PENDING, 0, none, none, none⟩)
        (.ok failResult) 0).db.map DbPost.retryCount = some 2 ∧
    ¬ (runWorker "p5" (.ok ⟨"instagram", .IMAGE⟩) (some ⟨.PENDING, 0, none, none, none⟩)
        (.ok failResult) 0).db.map DbPost.retryCount = some 1 := by
  exact ⟨by decide, by decide⟩

/-- C5 (amended): a thrown fault increments the retry counter by exactly
one, sets the status back to `PENDING` when the new count is below 3 (else
`FAILED` with the error message retained) and rethrows for the queue's
exponential-backoff retry (base 5 s: delays 5 s, 10 s, 20 s; `attempts: 3`)
exactly when the pre-attempt count was below 2.  An adapter-reported
failure whose first increment reaches 3 ends `FAILED` with that count; one
whose first increment stays below 3 is incremented a second time on the
rethrow path (net +2), ending `PENDING` with a rethrow when the original
count was 0, and `FAILED` at count 3 with no rethrow when it was 1. -/
theorem retry_policy (pid : String) (post : Prepared) (p : DbPost)
    (res : PublishResult) (e : String) (now : Nat)
    (hplat : getAdapter post.platform = .ok ()) (hp : p.status = .PENDING) :
    ((runWorker pid (.ok post) (some p) (.error e) now).db =
        some { p with
               status := (if p.retryCount + 1 < 3 then .PENDING else .FAILED),
               retryCount := p.retryCount + 1, errorMessage := some e } ∧
      (runWorker pid (.ok post) (some p) (.error e) now).outcome =
        (if p.retryCount < 2 then .rethrow e else .finished (.caught e))) ∧
    (res.success = false → ¬ p.retryCount + 1 < 3 →
      (runWorker pid (.ok post) (some p) (.ok res) now).db =
        some { p with
               status := .FAILED, retryCount := p.retryCount + 1,
               errorMessage := some (strOrD res.error "Unknown error") } ∧
      (runWorker pid (.ok post) (some p) (.ok res) now).outcome =
        .finished (.failedResult res.error (p.retryCount + 1))) ∧
    (res.success = false → p.retryCount + 1 < 3 →
      (runWorker pid (.ok post) (some p) (.ok res) now).db =
        some { p with
               status := (if p.retryCount + 2 < 3 then .PENDING else .FAILED),
               retryCount := p.retryCount + 2,
               errorMessage := some (strOrD res.error "Publish failed") } ∧
      (runWorker pid (.ok post) (some p) (.ok res) now).outcome =
        (if p.retryCount + 1 < 2 then .rethrow (strOrD res.error "Publish failed")
         else .finished (.caught (strOrD res.error "Publish failed")))) ∧
    (jobAttempts = 3 ∧
      [backoffDelayMs 0, backoffDelayMs 1, backoffDelayMs 2] = [5000, 10000, 20000]) := by
  refine ⟨?_, ?_, ?_, by decide⟩
  · rw [runWorker_adapter_throw pid e post p now hp hplat, catchPhase_some]
    exact ⟨rfl, rfl⟩
  · intro hs h3
    rw [runWorker_adapter_ok pid post p res now hp hplat]
    simp [hs, h3]
  · intro hs h3
    rw [runWorker_adapter_ok pid post p res now hp hplat, hs]
    simp only [Bool.false_eq_true, if_false]
    rw [if_pos (decide_eq_true h3), catchPhase_some]
    exact ⟨rfl, rfl⟩

/-- C5 witness: the thrown-fault clause at a concrete input — counter 0
becomes 1, status back to `PENDING`, error rethrown. -/
theorem retry_policy_witness :
    (runWorker "p5" (.ok ⟨"instagram", .IMAGE⟩) (some ⟨.PENDING, 0, none, none, none⟩)
        (.error "boom") 0).db = some ⟨.PENDING, 1, some "boom", none, none⟩ ∧
    (runWorker "p5" (.ok ⟨"instagram", .IMAGE⟩) (some ⟨.PENDING, 0, none, none, none⟩)
        (.error "boom") 0).outcome = .rethrow "boom" := by
  have h := (retry_policy "p5" ⟨"instagram", .IMAGE⟩ ⟨.PENDING, 0, none, none, none⟩
    okResult "boom" 0 rfl rfl).1
  exact ⟨h.1, h.2⟩

end InstaAutomate
